import Mathlib

/-!
# Verification of the rr record/replay core against its sources

Shallow embedding of the parts of the rr sources that the specification's
claims are about:

* `src/diverter.cc` — the diversion session's syscall processing and
  debugger-request loop (`process_syscall`, `process_debugger_requests`,
  `divert`).
* `src/share/syscall_buffer.c` — the preload shim's syscall ring buffer
  (`prep_syscall`, `can_buffer_syscall`, `commit_syscall`,
  `update_errno_ret`, the `clock_gettime` wrapper), the seccomp filter
  installation (`install_syscall_filter`) and the desched event counter
  setup (`open_desched_event_counter`, `set_up_buffer`).

The build is a 32-bit x86 one (the CMake file forces `-m32` by default and
the shim issues syscalls via `int $0x80`), so syscall numbers and struct
sizes below are the i386 Linux ones.
-/

/-! ## Linux constants (i386 ABI and uapi headers; given data) -/

/-- `__NR_restart_syscall` on i386. -/
def SYS_restart_syscall : Int := 0
/-- `__NR_fork` on i386. -/
def SYS_fork : Int := 2
/-- `__NR_kill` on i386. -/
def SYS_kill : Int := 37
/-- `__NR_ioctl` on i386. -/
def SYS_ioctl : Int := 54
/-- `__NR_gettimeofday` on i386. -/
def SYS_gettimeofday : Int := 78
/-- `__NR_ipc` on i386. -/
def SYS_ipc : Int := 117
/-- `__NR_clone` on i386. -/
def SYS_clone : Int := 120
/-- `__NR_rt_sigqueueinfo` on i386. -/
def SYS_rt_sigqueueinfo : Int := 178
/-- `__NR_tkill` on i386. -/
def SYS_tkill : Int := 238
/-- `__NR_clock_gettime` on i386. -/
def SYS_clock_gettime : Int := 265
/-- `__NR_tgkill` on i386. -/
def SYS_tgkill : Int := 270
/-- `__NR_rt_tgsigqueueinfo` on i386. -/
def SYS_rt_tgsigqueueinfo : Int := 335

/-- `EHWPOISON`, the largest errno value as of linux 3.9.5
(see the comment in `update_errno_ret`). -/
def EHWPOISON : Int := 133

/-- `PERF_TYPE_SOFTWARE` from `linux/perf_event.h`. -/
def PERF_TYPE_SOFTWARE : Nat := 1
/-- `PERF_COUNT_SW_CONTEXT_SWITCHES` from `linux/perf_event.h`. -/
def PERF_COUNT_SW_CONTEXT_SWITCHES : Nat := 3
/-- `O_ASYNC` on Linux/x86 (octal 020000). -/
def O_ASYNC : Nat := 8192
/-- `F_OWNER_TID` from `fcntl.h`. -/
def F_OWNER_TID : Nat := 0
/-- `SIGIO` on Linux/x86. -/
def SIGIO : Nat := 29

namespace Diverter

/-! ## Embedding of `src/diverter.cc` -/

/-- The tracee register fields that `diverter.cc` reads and writes:
the (original) syscall number, the six syscall argument registers and the
syscall result register. -/
structure Registers where
  orig_syscallno : Int
  syscall_result : Int
  arg1 : Int
  arg2 : Int
  arg3 : Int
  arg4 : Int
  arg5 : Int
  arg6 : Int
deriving DecidableEq

/-- `Registers::set_syscall_result`. -/
def Registers.set_syscall_result (r : Registers) (v : Int) : Registers :=
  { r with syscall_result := v }

/-- The part of a diversion `Task` that `process_syscall` consults: its
registers and whether the current syscall stop is the desched-event ioctl
(`Task::is_desched_event_syscall`). -/
structure DivTask where
  regs : Registers
  is_desched_event_syscall : Bool
deriving DecidableEq

/-- Observable outcome of `process_syscall` on a task: the resulting
registers, whether the syscall was actually issued against the kernel
(via `AutoRemoteSyscalls` in `execute_syscall`), and whether
`finish_emulated_syscall` was called on the task. -/
structure DivOutcome where
  regs : Registers
  executed_kernel : Bool
  finished_emulated : Bool
deriving DecidableEq

/-- A kernel oracle: the result the kernel returns for a syscall, given
its number and six arguments.  `execute_syscall` consults it. -/
def KernelOracle := Int → Int → Int → Int → Int → Int → Int → Int

/-- `finish_emulated_syscall_with_ret` (diverter.cc:20): write `ret` into
the task's syscall-result register and finish the emulated syscall. -/
def finish_emulated_syscall_with_ret (t : DivTask) (ret : Int) : DivOutcome :=
  { regs := t.regs.set_syscall_result ret
    executed_kernel := false
    finished_emulated := true }

/-- `execute_syscall` (diverter.cc:32): finish the emulated syscall, then
really execute the syscall held in the task's registers against the
kernel via `AutoRemoteSyscalls`; the kernel's return value lands in the
task's syscall-result register. -/
def execute_syscall (kernel : KernelOracle) (t : DivTask) : DivOutcome :=
  { regs := t.regs.set_syscall_result
      (kernel t.regs.orig_syscallno t.regs.arg1 t.regs.arg2 t.regs.arg3
        t.regs.arg4 t.regs.arg5 t.regs.arg6)
    executed_kernel := true
    finished_emulated := true }

/-- `process_syscall` (diverter.cc:43).  The desched arm/disarm ioctl is
emulated as a no-op with a fudged 0 return; the identifier-leaking
syscalls `ipc`, `kill`, `rt_sigqueueinfo`, `rt_tgsigqueueinfo`, `tgkill`,
`tkill` are blacklisted by plain `return` (no register change, no
emulated-syscall finish); everything else is executed for real. -/
def process_syscall (kernel : KernelOracle) (t : DivTask) (syscallno : Int) :
    DivOutcome :=
  if syscallno = SYS_ioctl then
    if !t.is_desched_event_syscall then
      execute_syscall kernel t
    else
      finish_emulated_syscall_with_ret t 0
  else if syscallno = SYS_ipc ∨ syscallno = SYS_kill ∨
      syscallno = SYS_rt_sigqueueinfo ∨ syscallno = SYS_rt_tgsigqueueinfo ∨
      syscallno = SYS_tgkill ∨ syscallno = SYS_tkill then
    { regs := t.regs, executed_kernel := false, finished_emulated := false }
  else
    execute_syscall kernel t

/-! ### The debugger-request loop (`process_debugger_requests`, `divert`) -/

/-- The debugger request kinds distinguished by `process_debugger_requests`
(diverter.cc:124).  `cont` and `step` are the two resume-execution
requests (`dbg_is_resume_request`); the ten breakpoint/watchpoint
set/remove request kinds all take the same branch and are collapsed into
`set_or_remove_break`; every remaining kind takes the `default` branch and
is collapsed into `other`. -/
inductive DbgReq
  | cont
  | step
  | restart
  | read_siginfo
  | write_siginfo
  | set_query_thread
  | set_or_remove_break
  | other
deriving DecidableEq

/-- `dbg_is_resume_request`: true for `DREQ_CONTINUE` and `DREQ_STEP`. -/
def is_resume_request : DbgReq → Bool
  | .cont => true
  | .step => true
  | _ => false

/-- Modelled from the spec: `session.h`/`session.cc` are not under `src/`,
only their caller `diverter.cc` is.  Per spec section 4.8 the diversion
session keeps a reference counter; `diversion_ref` increments it. -/
def diversion_ref (c : Int) : Int := c + 1

/-- Modelled from the spec: `diversion_unref` decrements the diversion
session's reference counter (spec section 4.8). -/
def diversion_unref (c : Int) : Int := c - 1

/-- Modelled from the spec: `diversion_dying` holds when the diversion
reference counter has reached zero (spec section 4.8). -/
def diversion_dying (c : Int) : Bool := c = 0

/-- Result of `process_debugger_requests`: either the function returned
`nullptr` (the diversion ends), or it returned a task to resume, with the
debugger requests not yet consumed; `no_more_requests` marks exhaustion of
the modelled request stream (the real loop blocks for the next request). -/
inductive PdrResult
  | end_session (count : Int)
  | resume_task (count : Int) (remaining : List DbgReq)
  | no_more_requests
deriving DecidableEq

/-- `process_debugger_requests` (diverter.cc:124), with the session's
diversion reference count as explicit state.  A resume request returns
`nullptr` when the diversion is dying and the target task otherwise;
`DREQ_RESTART` returns `nullptr`; `DREQ_READ_SIGINFO` increments the
count and continues; `DREQ_WRITE_SIGINFO` decrements it and continues;
breakpoint/watchpoint set/remove requests return `nullptr` when the
diversion is dying; every other request is dispatched and the loop
continues. -/
def process_debugger_requests (count : Int) : List DbgReq → PdrResult
  | [] => .no_more_requests
  | req :: reqs =>
    if is_resume_request req then
      if diversion_dying count then .end_session count
      else .resume_task count reqs
    else
      match req with
      | .restart => .end_session count
      | .read_siginfo => process_debugger_requests (diversion_ref count) reqs
      | .write_siginfo => process_debugger_requests (diversion_unref count) reqs
      | .set_or_remove_break =>
        if diversion_dying count then .end_session count
        else process_debugger_requests count reqs
      | _ => process_debugger_requests count reqs

/-- The `while` loop of `divert` (diverter.cc:196), fuel-bounded.  Each
iteration runs `process_debugger_requests`; a `nullptr` result breaks the
loop, after which `divert` asserts the session is dying and calls
`kill_all_tasks` — modelled by returning `some` of the final count.
A resume result advances the tracee (`advance`), which does not touch the
reference count, and loops.  `none` means the modelled fuel or request
stream ran out. -/
def divert_loop : Nat → Int → List DbgReq → Option Int
  | 0, _, _ => none
  | fuel + 1, count, reqs =>
    match process_debugger_requests count reqs with
    | .end_session c => some c
    | .resume_task c rest => divert_loop fuel c rest
    | .no_more_requests => none

/-- The termination condition exactly as claim C9 words it: the session
ends at a restart request, or at a resume-execution request once the
reference count — incremented by `READ_SIGINFO`, decremented by
`WRITE_SIGINFO` — has reached zero, and at nothing else. -/
def claim_ends (count : Int) : List DbgReq → PdrResult
  | [] => .no_more_requests
  | req :: reqs =>
    if is_resume_request req then
      if diversion_dying count then .end_session count
      else .resume_task count reqs
    else
      match req with
      | .restart => .end_session count
      | .read_siginfo => claim_ends (diversion_ref count) reqs
      | .write_siginfo => claim_ends (diversion_unref count) reqs
      | _ => claim_ends count reqs

/-- The amended termination condition: like `claim_ends`, but a
breakpoint/watchpoint set/remove request received while the reference
count is zero also ends the session (diverter.cc:163-180). -/
def amended_ends (count : Int) : List DbgReq → PdrResult
  | [] => .no_more_requests
  | req :: reqs =>
    if is_resume_request req then
      if diversion_dying count then .end_session count
      else .resume_task count reqs
    else
      match req with
      | .restart => .end_session count
      | .read_siginfo => amended_ends (diversion_ref count) reqs
      | .write_siginfo => amended_ends (diversion_unref count) reqs
      | .set_or_remove_break =>
        if diversion_dying count then .end_session count
        else amended_ends count reqs
      | _ => amended_ends count reqs

end Diverter

namespace SyscallBuffer

/-! ## Embedding of `src/share/syscall_buffer.c`

Pointers are modelled as `Int` addresses (the null pointer is address 0).
The shim is built 32-bit; all struct sizes are the i386 ones.  The header
`syscall_buffer.h` is not under `src/`, so the struct sizes, the ring
size and `stored_record_size` are modelled from the spec (sections 3 and
6): a record is the packed tuple `{syscall_number, size_in_bytes,
return_value, desched_flag, payload[]}`, the ring header is
`{num_rec_bytes, abort_commit, ...}`, and the ring has a fixed
power-of-two size of 1 MiB. -/

/-- Modelled from the spec: `sizeof(struct syscallbuf_record)` — the
packed record bookkeeping fields (32-bit return value, 16-bit syscall
number, desched flag byte plus padding byte, 32-bit size) preceding the
inline payload; `syscall_buffer.h` is not under `src/`. -/
def sizeof_syscallbuf_record : Int := 12

/-- Modelled from the spec: `sizeof(struct syscallbuf_hdr)` — the 32-bit
`num_rec_bytes` and `abort_commit` fields at the start of the ring;
`syscall_buffer.h` is not under `src/`. -/
def sizeof_syscallbuf_hdr : Int := 8

/-- Modelled from the spec: `SYSCALLBUF_BUFFER_SIZE`, the fixed
power-of-two ring size ("e.g. 1 MiB", spec section 6);
`syscall_buffer.h` is not under `src/`. -/
def SYSCALLBUF_BUFFER_SIZE : Int := 1048576

/-- `sizeof(struct timespec)` on i386: two 32-bit longs. -/
def sizeof_timespec : Int := 8

/-- Modelled from the spec: `stored_record_size(length)`, the space a
record of `length` bytes occupies in the ring once committed — the length
rounded up to a whole number of 32-bit words (records are packed
back-to-back, spec section 3); `syscall_buffer.h` is not under `src/`.
On the machine this is the two's-complement computation
`(length + 3) & ~3`, which clears the low two bits, i.e. rounds
`length + 3` down to a multiple of 4; `Int.emod` by 4 is non-negative, so
the formula below agrees with the bit-clearing for negative lengths
too. -/
def stored_record_size (length : Int) : Int :=
  length + 3 - (length + 3) % 4

/-- The desched-notification enum of the wrappers
(syscall_buffer.c:585). -/
def WILL_ARM_DESCHED_EVENT : Int := 0
/-- See `WILL_ARM_DESCHED_EVENT`. -/
def DISARMED_DESCHED_EVENT : Int := 1
/-- See `WILL_ARM_DESCHED_EVENT`. -/
def NO_DESCHED : Int := 2

/-- The bookkeeping fields of the record slot at `buffer_last()`
(`struct syscallbuf_record`, written by `commit_syscall`). -/
structure SyscallbufRecord where
  ret : Int
  syscallno : Int
  desched : Bool
  size : Int
deriving DecidableEq

/-- The shim state visible to the ring-buffer code: the `buffer` global
(base address of the mapped region, 0 when unmapped), the thread-local
`buffer_locked` flag, the ring header fields `num_rec_bytes` and
`abort_commit`, the record slot at `buffer_last()`, and the C `errno`. -/
structure ShimState where
  buffer : Int
  buffer_locked : Bool
  num_rec_bytes : Int
  abort_commit : Bool
  lastRec : SyscallbufRecord
  errno : Int
deriving DecidableEq

/-- `buffer_last()` (syscall_buffer.c:141): the byte just after the last
valid record, i.e. `buffer + sizeof(hdr) + hdr->num_rec_bytes`. -/
def buffer_last (s : ShimState) : Int :=
  s.buffer + sizeof_syscallbuf_hdr + s.num_rec_bytes

/-- `buffer_end()` (syscall_buffer.c:150): the byte just after the mapped
region, i.e. `buffer + SYSCALLBUF_BUFFER_SIZE`. -/
def buffer_end (s : ShimState) : Int :=
  s.buffer + SYSCALLBUF_BUFFER_SIZE

/-- `init()`/`set_up_buffer()` as seen by the ring state: the tracer maps
the buffer (at an address the tracee does not choose, here the parameter
`init_base`) and initializes the ring header
("rr initializes the buffer header", syscall_buffer.c:470). -/
def init (init_base : Int) (s : ShimState) : ShimState :=
  { s with buffer := init_base, num_rec_bytes := 0, abort_commit := false }

/-- `prep_syscall` (syscall_buffer.c:586): map the buffer if needed; if
the buffer is locked we may be reentering via a signal handler, so return
an invalid (null) pointer; otherwise lock the buffer and return a pointer
just past the record slot at `buffer_last()`. -/
def prep_syscall (init_base : Int) (notify_desched : Int) (s : ShimState) :
    ShimState × Int :=
  let _ := notify_desched
  let s := if s.buffer = 0 then init init_base s else s
  if s.buffer_locked then
    (s, 0)
  else
    ({ s with buffer_locked := true },
     buffer_last s + sizeof_syscallbuf_record)

/-- `can_buffer_syscall` (syscall_buffer.c:615): 1 if it is ok to proceed
with buffering, 0 if the syscall must be traced.  The first test catches
a catastrophic overflow or a failed lock (bail without unlocking); the
second catches the ring being too full to fit the stored record while
keeping room for the next `prep_syscall` (unlock, then bail). -/
def can_buffer_syscall (record_end : Int) (s : ShimState) :
    ShimState × Bool :=
  let record_start := buffer_last s
  let stored_end := record_start + stored_record_size (record_end - record_start)
  if stored_end < record_start + sizeof_syscallbuf_record then
    (s, false)
  else if stored_end > buffer_end s - sizeof_syscallbuf_record then
    ({ s with buffer_locked := false }, false)
  else
    (s, true)

/-- `update_errno_ret` (syscall_buffer.c:659): a raw kernel return value
in `[-EHWPOISON, 0)` is an error — set `errno` to its negation and return
-1; anything else is returned unchanged. -/
def update_errno_ret (s : ShimState) (ret : Int) : ShimState × Int :=
  if 0 > ret ∧ ret ≥ -EHWPOISON then
    ({ s with errno := -ret }, -1)
  else
    (s, ret)

/-- One memory store performed by `commit_syscall`, in program order:
a store to a field of the record at `buffer_last()`, to a ring-header
field, or the clearing of `buffer_locked`. -/
inductive WriteEv
  | recRet
  | recSyscallno
  | recDesched
  | recSize
  | hdrNumRecBytes
  | hdrAbortCommit
  | lockCleared
deriving DecidableEq

/-- Index of the first occurrence of `e` in a store log (length of the
log when absent). -/
def store_index (e : WriteEv) : List WriteEv → Nat
  | [] => 0
  | x :: xs => if x = e then 0 else store_index e xs + 1

/-- The outcome of `commit_syscall`: the final shim state, the value
returned to the wrapper's caller, and the ordered log of stores the
function performed. -/
structure CommitResult where
  state : ShimState
  ret : Int
  log : List WriteEv
deriving DecidableEq

/-- `commit_syscall` (syscall_buffer.c:676).  If the tracer set
`abort_commit` (the syscall was descheduled mid-flight and recorded as a
normal enter/exit pair), drop the record and clear the flag; otherwise
fill in the record's `ret`, `syscallno`, `desched` and `size` fields and
advance `num_rec_bytes` by the stored record size.  Either way clear
`buffer_locked` afterwards and return `update_errno_ret(ret)`. -/
def commit_syscall (syscallno : Int) (record_end : Int) (ret : Int)
    (disarmed_desched : Int) (s : ShimState) : CommitResult :=
  let record_start := buffer_last s
  let (s1, log1) :=
    if s.abort_commit then
      ({ s with abort_commit := false }, [WriteEv.hdrAbortCommit])
    else
      ({ s with
          lastRec :=
            { ret := ret
              syscallno := syscallno
              desched := decide (NO_DESCHED ≠ disarmed_desched)
              size := record_end - record_start }
          num_rec_bytes :=
            s.num_rec_bytes + stored_record_size (record_end - record_start) },
       [WriteEv.recRet, WriteEv.recSyscallno, WriteEv.recDesched,
        WriteEv.recSize, WriteEv.hdrNumRecBytes])
  let s2 := { s1 with buffer_locked := false }
  let (s3, r) := update_errno_ret s2 ret
  { state := s3, ret := r, log := log1 ++ [WriteEv.lockCleared] }

/-- Which delivery path a wrapper took for its syscall. -/
inductive SyscallPath
  | traced
  | buffered
deriving DecidableEq

/-- Outcome of running a wrapper: the path taken, the value returned to
the caller, the final shim state, and the store log of the commit (empty
on the traced fallback path). -/
structure WrapperOutcome where
  path : SyscallPath
  ret : Int
  state : ShimState
  log : List WriteEv
deriving DecidableEq

/-- The `clock_gettime` wrapper (syscall_buffer.c:701).  `tp` tells
whether the caller passed a non-null `struct timespec*`; `kernel_ret` is
the value the kernel returns for the syscall (by whichever path it is
issued).  On the fallback path the wrapper issues the traced
`syscall(SYS_clock_gettime, ...)` and returns its result without touching
the ring. -/
def clock_gettime (init_base : Int) (tp : Bool) (kernel_ret : Int)
    (s : ShimState) : WrapperOutcome :=
  let (s1, ptr0) := prep_syscall init_base NO_DESCHED s
  let ptr := if tp then ptr0 + sizeof_timespec else ptr0
  let (s2, ok) := can_buffer_syscall ptr s1
  if !ok then
    { path := .traced, ret := kernel_ret, state := s2, log := [] }
  else
    let ret := kernel_ret
    let c := commit_syscall SYS_clock_gettime ptr ret NO_DESCHED s2
    { path := .buffered, ret := c.ret, state := c.state, log := c.log }

/-! ### The seccomp-BPF filter (`install_syscall_filter`) -/

/-- What the installed seccomp filter decides for one syscall:
`SECCOMP_RET_ALLOW`, or `SECCOMP_RET_TRACE` (a ptrace trap to rr). -/
inductive SeccompAction
  | allow
  | trace
deriving DecidableEq

/-- One filter rule, mirroring the macros used in
`install_syscall_filter` (syscall_buffer.c:334-351):
`ALLOW_SYSCALLS_FROM_CALLSITE(addr)`, `ALLOW_SYSCALL(name)` and
`TRACE_PROCESS`.  (`EXAMINE_SYSCALL` merely loads the syscall number and
is implicit in `allow_syscall`'s test.) -/
inductive FilterRule
  | allow_from_callsite (addr : Int)
  | allow_syscall (no : Int)
  | trace_process
deriving DecidableEq

/-- Modelled from the spec: `seccomp-bpf.h` (the BPF macro bodies) is not
under `src/`.  Per spec sections 4.4 and 8, `ALLOW_SYSCALLS_FROM_CALLSITE`
allows a syscall when its originating instruction pointer equals the given
address, `ALLOW_SYSCALL` allows a syscall when its number matches, and
`TRACE_PROCESS` traps every syscall that reaches it; rules are tried in
order. -/
def run_filter (ip : Int) (syscallno : Int) : List FilterRule → SeccompAction
  | [] => .trace
  | rule :: rules =>
    match rule with
    | .allow_from_callsite addr =>
      if ip = addr then .allow else run_filter ip syscallno rules
    | .allow_syscall no =>
      if syscallno = no then .allow else run_filter ip syscallno rules
    | .trace_process => .trace

/-- The rule list of `install_syscall_filter` (syscall_buffer.c:334), in
source order: allow everything from the untraced entry point
(`protected_call_start`), then allow `clone`, `fork` and
`restart_syscall` from anywhere, then trace the rest. -/
def install_syscall_filter (protected_call_start : Int) : List FilterRule :=
  [.allow_from_callsite protected_call_start,
   .allow_syscall SYS_clone,
   .allow_syscall SYS_fork,
   .allow_syscall SYS_restart_syscall,
   .trace_process]

/-! ### The desched event counter (`open_desched_event_counter`) -/

/-- The fields of `struct perf_event_attr` that
`open_desched_event_counter` fills in (the rest are zeroed). -/
structure PerfEventAttr where
  type : Nat
  config : Nat
  disabled : Bool
  sample_period : Nat
deriving DecidableEq

/-- `struct f_owner_ex`. -/
structure FOwnerEx where
  type : Nat
  pid : Nat
deriving DecidableEq

/-- The observable configuration of the desched counter fd after
`open_desched_event_counter` returns: the perf event attributes it was
opened with and the three fcntls applied to the fd. -/
structure DeschedCounter where
  attr : PerfEventAttr
  setfl_flags : Nat
  owner : FOwnerEx
  sig : Nat
deriving DecidableEq

/-- `open_desched_event_counter` (syscall_buffer.c:377): open a software
perf event counting context switches, disabled, with sample period
`nr_descheds`, then `fcntl(F_SETFL, O_ASYNC)`,
`fcntl(F_SETOWN_EX, {F_OWNER_TID, gettid()})` and
`fcntl(F_SETSIG, SIGIO)` it.  `tid` is the calling thread's
`traced_gettid()`. -/
def open_desched_event_counter (nr_descheds : Nat) (tid : Nat) :
    DeschedCounter :=
  { attr :=
      { type := PERF_TYPE_SOFTWARE
        config := PERF_COUNT_SW_CONTEXT_SWITCHES
        disabled := true
        sample_period := nr_descheds }
    setfl_flags := O_ASYNC
    owner := { type := F_OWNER_TID, pid := tid }
    sig := SIGIO }

/-- The desched counter opened by `set_up_buffer` (syscall_buffer.c:424):
`open_desched_event_counter(1)` in the thread with id `tid`. -/
def set_up_buffer_desched_counter (tid : Nat) : DeschedCounter :=
  open_desched_event_counter 1 tid

end SyscallBuffer

open Diverter SyscallBuffer

/-! ## The claims -/

/-- Claim C1, as stated: in a DiversionSession, a syscall stop whose
number is one of `kill`, `tgkill`, `tkill`, `ipc`, `rt_sigqueueinfo`,
`rt_tgsigqueueinfo` is not executed against the kernel AND the tracee
observes a success return value.  This is false: at a `kill` stop whose
result register holds -38, `process_syscall` takes the blacklist branch,
which returns without installing any return value, so the result register
still holds -38 — not a success value. -/
theorem c1_blacklist_counterexample :
    ¬ ∀ (kernel : KernelOracle) (t : DivTask) (no : Int),
        (no = SYS_kill ∨ no = SYS_tgkill ∨ no = SYS_tkill ∨ no = SYS_ipc ∨
            no = SYS_rt_sigqueueinfo ∨ no = SYS_rt_tgsigqueueinfo) →
        (process_syscall kernel t no).executed_kernel = false ∧
          0 ≤ (process_syscall kernel t no).regs.syscall_result := by
  intro h
  exact absurd
    (h (fun _ _ _ _ _ _ _ => 0)
      ⟨⟨SYS_kill, -38, 0, 0, 0, 0, 0, 0⟩, false⟩ SYS_kill (Or.inl rfl)).2
    (by decide)

/-- Claim C1 (amended): in a DiversionSession, for every syscall stop
whose number is one of `kill`, `tgkill`, `tkill`, `ipc`,
`rt_sigqueueinfo`, `rt_tgsigqueueinfo`, the syscall is not executed
against the kernel, and `process_syscall` returns without touching the
tracee's registers — no success return value is installed and the
emulated syscall is not finished. -/
theorem c1_blacklist_amended :
    ∀ (kernel : KernelOracle) (t : DivTask) (no : Int),
      (no = SYS_kill ∨ no = SYS_tgkill ∨ no = SYS_tkill ∨ no = SYS_ipc ∨
          no = SYS_rt_sigqueueinfo ∨ no = SYS_rt_tgsigqueueinfo) →
      process_syscall kernel t no =
        { regs := t.regs, executed_kernel := false, finished_emulated := false } := by
  intro kernel t no h
  rcases h with h | h | h | h | h | h <;> subst h <;> rfl

/-- Witness for C1 (amended): the blacklist membership hypothesis is
satisfiable and the theorem evaluates at a concrete `kill` stop. -/
theorem c1_blacklist_amended_witness :
    (SYS_kill = SYS_kill ∨ SYS_kill = SYS_tgkill ∨ SYS_kill = SYS_tkill ∨
        SYS_kill = SYS_ipc ∨ SYS_kill = SYS_rt_sigqueueinfo ∨
        SYS_kill = SYS_rt_tgsigqueueinfo) ∧
      process_syscall (fun _ _ _ _ _ _ _ => 0)
          ⟨⟨SYS_kill, -38, 0, 0, 0, 0, 0, 0⟩, false⟩ SYS_kill =
        { regs := ⟨SYS_kill, -38, 0, 0, 0, 0, 0, 0⟩, executed_kernel := false,
          finished_emulated := false } :=
  ⟨Or.inl rfl,
    c1_blacklist_amended (fun _ _ _ _ _ _ _ => 0)
      ⟨⟨SYS_kill, -38, 0, 0, 0, 0, 0, 0⟩, false⟩ SYS_kill (Or.inl rfl)⟩

/-- Claim C4: in a DiversionSession, an `ioctl` syscall stop that is a
desched-event ioctl is not executed against the kernel; the tracee's
syscall result register is set to 0 and the emulated syscall is
finished — the call is a no-op returning 0. -/
theorem c4_desched_ioctl_noop :
    ∀ (kernel : KernelOracle) (t : DivTask),
      t.is_desched_event_syscall = true →
      process_syscall kernel t SYS_ioctl =
        { regs := t.regs.set_syscall_result 0, executed_kernel := false,
          finished_emulated := true } := by
  intro kernel t h
  simp [process_syscall, finish_emulated_syscall_with_ret, h]

/-- Witness for C4: a concrete desched-event ioctl stop. -/
theorem c4_desched_ioctl_noop_witness :
    (DivTask.is_desched_event_syscall ⟨⟨54, -38, 7, 0, 0, 0, 0, 0⟩, true⟩ = true) ∧
      process_syscall (fun _ _ _ _ _ _ _ => 0)
          ⟨⟨54, -38, 7, 0, 0, 0, 0, 0⟩, true⟩ SYS_ioctl =
        { regs := ⟨54, 0, 7, 0, 0, 0, 0, 0⟩, executed_kernel := false,
          finished_emulated := true } :=
  ⟨rfl,
    c4_desched_ioctl_noop (fun _ _ _ _ _ _ _ => 0)
      ⟨⟨54, -38, 7, 0, 0, 0, 0, 0⟩, true⟩ rfl⟩

/-- Claim C9, as stated: a diversion session ends exactly at a restart
request or at a resume-execution request with the reference count at
zero.  This is false: `process_debugger_requests` also returns null when
a breakpoint/watchpoint set/remove request arrives while the diversion is
dying — at count 0 and request list `[set_or_remove_break]` the code ends
the session although the claim's characterization does not. -/
theorem c9_termination_counterexample :
    ¬ ∀ (count : Int) (reqs : List DbgReq),
        process_debugger_requests count reqs = claim_ends count reqs := by
  intro h
  exact absurd (h 0 [DbgReq.set_or_remove_break]) (by decide)

/-- Claim C9 (amended): a diversion session ends exactly when the
debugger issues a restart request, when at a resume-execution request the
session's diversion reference count — incremented by each `READ_SIGINFO`
request and decremented by each `WRITE_SIGINFO` request — has reached
zero, or when a breakpoint/watchpoint set/remove request is received
while the count is zero; whenever `process_debugger_requests` returns
null, the `divert` loop exits and all diversion tasks are killed. -/
theorem c9_termination_amended :
    (∀ (count : Int) (reqs : List DbgReq),
        process_debugger_requests count reqs = amended_ends count reqs) ∧
      ∀ (count final : Int) (reqs : List DbgReq) (fuel : Nat),
        process_debugger_requests count reqs = .end_session final →
        divert_loop (fuel + 1) count reqs = some final := by
  refine ⟨?_, ?_⟩
  · intro count reqs
    induction reqs generalizing count with
    | nil => rfl
    | cons r rs ih =>
      cases r <;>
        simp [process_debugger_requests, amended_ends, is_resume_request, ih]
  · intro count final reqs fuel h
    simp [divert_loop, h]

/-- Witness for C9 (amended): a restart request ends a concrete session
and the loop reports the tasks killed. -/
theorem c9_termination_amended_witness :
    process_debugger_requests 0 [DbgReq.restart] = .end_session 0 ∧
      divert_loop 1 0 [DbgReq.restart] = some 0 :=
  ⟨by decide, c9_termination_amended.2 0 0 [DbgReq.restart] 0 (by decide)⟩

/-- Claim C2: the seccomp-BPF filter installed by the preload shim
permits without a ptrace trap exactly those syscalls whose originating
instruction pointer equals the shim's single untraced-entry-point
address, plus `clone`, `fork` and `restart_syscall` from any callsite;
every other syscall falls through to `TRACE_PROCESS`. -/
theorem c2_seccomp_filter :
    ∀ (entry ip syscallno : Int),
      (run_filter ip syscallno (install_syscall_filter entry) = .allow ↔
        ip = entry ∨ syscallno = SYS_clone ∨ syscallno = SYS_fork ∨
          syscallno = SYS_restart_syscall) ∧
      (¬(ip = entry ∨ syscallno = SYS_clone ∨ syscallno = SYS_fork ∨
            syscallno = SYS_restart_syscall) →
        run_filter ip syscallno (install_syscall_filter entry) = .trace) := by
  intro entry ip syscallno
  constructor
  · simp only [install_syscall_filter, run_filter]
    split_ifs <;> simp_all
  · intro h
    simp only [install_syscall_filter, run_filter]
    split_ifs <;> simp_all

/-- Claim C5: the desched counter opened by the shim for each thread is a
software perf event (`PERF_TYPE_SOFTWARE`) with config
`PERF_COUNT_SW_CONTEXT_SWITCHES` and `sample_period = 1`
(`set_up_buffer` invokes `open_desched_event_counter` with
`nr_descheds = 1`), created disabled, with the fd configured O_ASYNC,
owned (`F_SETOWN_EX`, `F_OWNER_TID`) by the opening thread's tid, and set
to deliver `SIGIO` (`F_SETSIG`). -/
theorem c5_desched_counter_config :
    ∀ tid : Nat,
      (set_up_buffer_desched_counter tid).attr.type = PERF_TYPE_SOFTWARE ∧
      (set_up_buffer_desched_counter tid).attr.config =
        PERF_COUNT_SW_CONTEXT_SWITCHES ∧
      (set_up_buffer_desched_counter tid).attr.sample_period = 1 ∧
      (set_up_buffer_desched_counter tid).attr.disabled = true ∧
      (set_up_buffer_desched_counter tid).setfl_flags = O_ASYNC ∧
      (set_up_buffer_desched_counter tid).owner.type = F_OWNER_TID ∧
      (set_up_buffer_desched_counter tid).owner.pid = tid ∧
      (set_up_buffer_desched_counter tid).sig = SIGIO :=
  fun _ => ⟨rfl, rfl, rfl, rfl, rfl, rfl, rfl, rfl⟩

/-- Claim C3: when `commit_syscall` finds the ring header's
`abort_commit` flag set by the tracer, no record fields are written (the
record slot at `buffer_last()` is untouched and the store log holds no
record-field store), `num_rec_bytes` is left unchanged — the shim drops
its own record — and `abort_commit` is reset to 0. -/
theorem c3_abort_commit_drops_record :
    ∀ (syscallno record_end ret disarmed : Int) (s : ShimState),
      s.abort_commit = true →
      (commit_syscall syscallno record_end ret disarmed s).state.num_rec_bytes =
          s.num_rec_bytes ∧
      (commit_syscall syscallno record_end ret disarmed s).state.lastRec =
          s.lastRec ∧
      (commit_syscall syscallno record_end ret disarmed s).state.abort_commit =
          false ∧
      ∀ e ∈ (commit_syscall syscallno record_end ret disarmed s).log,
        e = WriteEv.hdrAbortCommit ∨ e = WriteEv.lockCleared := by
  intro syscallno record_end ret disarmed s h
  by_cases hr : 0 > ret ∧ ret ≥ -EHWPOISON <;>
    simp [commit_syscall, update_errno_ret, h, hr]

/-- Witness for C3: a concrete aborted commit. -/
theorem c3_abort_commit_drops_record_witness :
    (ShimState.abort_commit ⟨4096, true, 16, true, ⟨0, 0, false, 0⟩, 0⟩ = true) ∧
      (commit_syscall 265 4140 7 2
            ⟨4096, true, 16, true, ⟨0, 0, false, 0⟩, 0⟩).state.num_rec_bytes = 16 :=
  ⟨rfl,
    (c3_abort_commit_drops_record 265 4140 7 2
        ⟨4096, true, 16, true, ⟨0, 0, false, 0⟩, 0⟩ rfl).1⟩

/-- Claim C8: in every successful (non-aborted) commit, the record body
stores — `ret`, `syscallno`, `desched`, `size` — all precede the store
that advances `num_rec_bytes` (which grows by the stored record size),
and the clearing of `buffer_locked` comes last in the store order. -/
theorem c8_commit_store_order :
    ∀ (syscallno record_end ret disarmed : Int) (s : ShimState),
      s.abort_commit = false →
      (commit_syscall syscallno record_end ret disarmed s).log =
          [WriteEv.recRet, WriteEv.recSyscallno, WriteEv.recDesched,
            WriteEv.recSize, WriteEv.hdrNumRecBytes, WriteEv.lockCleared] ∧
      (commit_syscall syscallno record_end ret disarmed s).state.num_rec_bytes =
          s.num_rec_bytes + stored_record_size (record_end - buffer_last s) ∧
      (store_index WriteEv.recRet
            (commit_syscall syscallno record_end ret disarmed s).log <
          store_index WriteEv.hdrNumRecBytes
            (commit_syscall syscallno record_end ret disarmed s).log ∧
        store_index WriteEv.recSyscallno
            (commit_syscall syscallno record_end ret disarmed s).log <
          store_index WriteEv.hdrNumRecBytes
            (commit_syscall syscallno record_end ret disarmed s).log ∧
        store_index WriteEv.recDesched
            (commit_syscall syscallno record_end ret disarmed s).log <
          store_index WriteEv.hdrNumRecBytes
            (commit_syscall syscallno record_end ret disarmed s).log ∧
        store_index WriteEv.recSize
            (commit_syscall syscallno record_end ret disarmed s).log <
          store_index WriteEv.hdrNumRecBytes
            (commit_syscall syscallno record_end ret disarmed s).log) ∧
      (commit_syscall syscallno record_end ret disarmed s).log.getLast? =
          some WriteEv.lockCleared := by
  intro syscallno record_end ret disarmed s h
  have hlog : (commit_syscall syscallno record_end ret disarmed s).log =
      [WriteEv.recRet, WriteEv.recSyscallno, WriteEv.recDesched,
        WriteEv.recSize, WriteEv.hdrNumRecBytes, WriteEv.lockCleared] := by
    by_cases hr : 0 > ret ∧ ret ≥ -EHWPOISON <;>
      simp [commit_syscall, update_errno_ret, h, hr]
  refine ⟨hlog, ?_, by rw [hlog]; exact ⟨by decide, by decide, by decide, by decide⟩,
    by rw [hlog]; decide⟩
  by_cases hr : 0 > ret ∧ ret ≥ -EHWPOISON <;>
    simp [commit_syscall, update_errno_ret, h, hr]

/-- Witness for C8: a concrete successful commit; `num_rec_bytes` grows
by the stored size of a 44-byte record (44, already word-aligned). -/
theorem c8_commit_store_order_witness :
    (ShimState.abort_commit ⟨4096, true, 16, false, ⟨0, 0, false, 0⟩, 0⟩ = false) ∧
      (commit_syscall 265 4164 0 2
            ⟨4096, true, 16, false, ⟨0, 0, false, 0⟩, 0⟩).state.num_rec_bytes =
        16 + stored_record_size 44 :=
  ⟨rfl,
    (c8_commit_store_order 265 4164 0 2
        ⟨4096, true, 16, false, ⟨0, 0, false, 0⟩, 0⟩ rfl).2.1⟩

/-- Claim C10: `commit_syscall` hands the raw kernel return value to
`update_errno_ret`: a value in `[-EHWPOISON, 0)` makes the wrapper set
`errno` to its negation and return -1 to the caller; any other value
(success values, and values below `-EHWPOISON`) is returned unchanged
with `errno` untouched. -/
theorem c10_commit_errno :
    ∀ (syscallno record_end ret disarmed : Int) (s : ShimState),
      (-EHWPOISON ≤ ret ∧ ret < 0 →
        (commit_syscall syscallno record_end ret disarmed s).ret = -1 ∧
        (commit_syscall syscallno record_end ret disarmed s).state.errno = -ret) ∧
      (¬(-EHWPOISON ≤ ret ∧ ret < 0) →
        (commit_syscall syscallno record_end ret disarmed s).ret = ret ∧
        (commit_syscall syscallno record_end ret disarmed s).state.errno =
          s.errno) := by
  intro syscallno record_end ret disarmed s
  constructor
  · intro h
    have hr : 0 > ret ∧ ret ≥ -EHWPOISON := ⟨h.2, h.1⟩
    by_cases ha : s.abort_commit <;>
      simp [commit_syscall, update_errno_ret, ha, hr]
  · intro h
    have hr : ¬(0 > ret ∧ ret ≥ -EHWPOISON) := fun hc => h ⟨hc.2, hc.1⟩
    by_cases ha : s.abort_commit <;>
      simp [commit_syscall, update_errno_ret, ha, hr]

/-- Witness for C10: a concrete errno-range return (-2 becomes -1 with
errno 2) and a concrete success return (5 passes through). -/
theorem c10_commit_errno_witness :
    (commit_syscall 265 4140 (-2) 2
          ⟨4096, true, 16, false, ⟨0, 0, false, 0⟩, 9⟩).ret = -1 ∧
      (commit_syscall 265 4140 (-2) 2
          ⟨4096, true, 16, false, ⟨0, 0, false, 0⟩, 9⟩).state.errno = 2 ∧
      (commit_syscall 265 4140 5 2
          ⟨4096, true, 16, false, ⟨0, 0, false, 0⟩, 9⟩).ret = 5 ∧
      (commit_syscall 265 4140 5 2
          ⟨4096, true, 16, false, ⟨0, 0, false, 0⟩, 9⟩).state.errno = 9 :=
  ⟨((c10_commit_errno 265 4140 (-2) 2
        ⟨4096, true, 16, false, ⟨0, 0, false, 0⟩, 9⟩).1 (by norm_num [EHWPOISON])).1,
    ((c10_commit_errno 265 4140 (-2) 2
        ⟨4096, true, 16, false, ⟨0, 0, false, 0⟩, 9⟩).1 (by norm_num [EHWPOISON])).2,
    ((c10_commit_errno 265 4140 5 2
        ⟨4096, true, 16, false, ⟨0, 0, false, 0⟩, 9⟩).2 (by norm_num)).1,
    ((c10_commit_errno 265 4140 5 2
        ⟨4096, true, 16, false, ⟨0, 0, false, 0⟩, 9⟩).2 (by norm_num)).2⟩

/-- Claim C6: a buffered-syscall wrapper entered while `buffer_locked` is
set (re-entry from a signal handler inside a wrapped syscall) gets an
invalid (null) pointer from `prep_syscall` with the ring unmodified, the
subsequent `can_buffer_syscall` check returns 0 without touching the ring
either, and the wrapper (here `clock_gettime`) issues the syscall via the
traced fallback path, leaving `num_rec_bytes` and the ring contents — in
fact the whole shim state — unchanged. -/
theorem c6_locked_fallback :
    ∀ (s : ShimState) (init_base kernel_ret : Int) (tp : Bool),
      0 < s.buffer → 0 ≤ s.num_rec_bytes → s.buffer_locked = true →
      prep_syscall init_base NO_DESCHED s = (s, 0) ∧
      can_buffer_syscall (if tp then sizeof_timespec else 0) s = (s, false) ∧
      clock_gettime init_base tp kernel_ret s =
        { path := .traced, ret := kernel_ret, state := s, log := [] } := by
  intro s init_base kernel_ret tp h1 h2 h3
  have hb : ¬s.buffer = 0 := by omega
  have hprep : prep_syscall init_base NO_DESCHED s = (s, 0) := by
    simp [prep_syscall, hb, h3]
  have hcan : can_buffer_syscall (if tp then sizeof_timespec else (0 : Int)) s =
      (s, false) := by
    cases tp <;>
    · simp only [can_buffer_syscall, stored_record_size, buffer_last, buffer_end,
        sizeof_syscallbuf_record, sizeof_syscallbuf_hdr, SYSCALLBUF_BUFFER_SIZE,
        sizeof_timespec, if_true, if_false, Bool.false_eq_true, ite_false, ite_true]
      rw [if_pos (by omega)]
  refine ⟨hprep, hcan, ?_⟩
  simp [clock_gettime, hprep, hcan]

/-- Witness for C6: a locked concrete shim state; `clock_gettime` falls
back to the traced path and leaves the state untouched. -/
theorem c6_locked_fallback_witness :
    (0 : Int) < 4096 ∧
      clock_gettime 0 true 42 ⟨4096, true, 0, false, ⟨0, 0, false, 0⟩, 0⟩ =
        { path := .traced, ret := 42,
          state := ⟨4096, true, 0, false, ⟨0, 0, false, 0⟩, 0⟩, log := [] } :=
  ⟨by norm_num,
    (c6_locked_fallback ⟨4096, true, 0, false, ⟨0, 0, false, 0⟩, 0⟩ 0 42 true
        (by norm_num) (by norm_num) rfl).2.2⟩

/-- Claim C7: when the stored record (record bytes plus bookkeeping, as
computed by `stored_record_size`) would end beyond `buffer_end()` minus
`sizeof(struct syscallbuf_record)` — the ring cannot fit the record while
keeping headroom for the next reservation — `can_buffer_syscall` clears
`buffer_locked` and returns 0, and the wrapper (here `clock_gettime`)
executes the syscall through the traced path instead of writing into the
ring. -/
theorem c7_overflow_fallback :
    (∀ (record_end : Int) (s : ShimState),
        buffer_last s + sizeof_syscallbuf_record ≤ record_end →
        buffer_end s - sizeof_syscallbuf_record <
          buffer_last s + stored_record_size (record_end - buffer_last s) →
        can_buffer_syscall record_end s =
          ({ s with buffer_locked := false }, false)) ∧
      ∀ (s : ShimState) (init_base kernel_ret : Int) (tp : Bool),
        s.buffer ≠ 0 → s.buffer_locked = false →
        buffer_end s - sizeof_syscallbuf_record <
          buffer_last s + stored_record_size
            (sizeof_syscallbuf_record + if tp then sizeof_timespec else 0) →
        (clock_gettime init_base tp kernel_ret s).path = .traced ∧
        (clock_gettime init_base tp kernel_ret s).state.num_rec_bytes =
          s.num_rec_bytes ∧
        (clock_gettime init_base tp kernel_ret s).state.lastRec = s.lastRec ∧
        (clock_gettime init_base tp kernel_ret s).state.buffer_locked = false := by
  constructor
  · intro record_end s h1 h2
    simp only [sizeof_syscallbuf_record] at h1
    simp only [can_buffer_syscall, stored_record_size,
      sizeof_syscallbuf_record] at h2 ⊢
    rw [if_neg (by omega), if_pos (by omega)]
  · intro s init_base kernel_ret tp hb hl h
    have hprep : prep_syscall init_base NO_DESCHED s =
        ({ s with buffer_locked := true },
          buffer_last s + sizeof_syscallbuf_record) := by
      simp [prep_syscall, hb, hl]
    have hcan : can_buffer_syscall
        (if tp then buffer_last s + sizeof_syscallbuf_record + sizeof_timespec
          else buffer_last s + sizeof_syscallbuf_record)
        { s with buffer_locked := true } =
        ({ s with buffer_locked := false }, false) := by
      cases tp <;>
      · simp only [can_buffer_syscall, buffer_last, buffer_end,
          stored_record_size, sizeof_syscallbuf_record, sizeof_syscallbuf_hdr,
          sizeof_timespec, SYSCALLBUF_BUFFER_SIZE, Bool.false_eq_true,
          Bool.true_eq_false, reduceIte] at h ⊢
        rw [if_neg (by omega), if_pos (by omega)]
    have hfin : clock_gettime init_base tp kernel_ret s =
        { path := .traced, ret := kernel_ret,
          state := { s with buffer_locked := false }, log := [] } := by
      simp [clock_gettime, hprep, hcan]
    simp [hfin]

/-- Witness for C7: a concrete nearly-full ring (num_rec_bytes = 2^20 -
39) for which a `clock_gettime` record with a timespec payload does not
fit; the wrapper takes the traced path and the lock ends up clear. -/
theorem c7_overflow_fallback_witness :
    (buffer_end ⟨4096, false, 1048537, false, ⟨0, 0, false, 0⟩, 0⟩ -
          sizeof_syscallbuf_record <
        buffer_last ⟨4096, false, 1048537, false, ⟨0, 0, false, 0⟩, 0⟩ +
          stored_record_size
            (sizeof_syscallbuf_record + if true then sizeof_timespec else 0)) ∧
      (clock_gettime 0 true 42
            ⟨4096, false, 1048537, false, ⟨0, 0, false, 0⟩, 0⟩).path = .traced ∧
      (clock_gettime 0 true 42
            ⟨4096, false, 1048537, false, ⟨0, 0, false, 0⟩,
              0⟩).state.num_rec_bytes = 1048537 ∧
      (clock_gettime 0 true 42
            ⟨4096, false, 1048537, false, ⟨0, 0, false, 0⟩,
              0⟩).state.buffer_locked = false :=
  ⟨by decide,
    (c7_overflow_fallback.2 ⟨4096, false, 1048537, false, ⟨0, 0, false, 0⟩, 0⟩
        0 42 true (by decide) rfl (by decide)).1,
    (c7_overflow_fallback.2 ⟨4096, false, 1048537, false, ⟨0, 0, false, 0⟩, 0⟩
        0 42 true (by decide) rfl (by decide)).2.1,
    (c7_overflow_fallback.2 ⟨4096, false, 1048537, false, ⟨0, 0, false, 0⟩, 0⟩
        0 42 true (by decide) rfl (by decide)).2.2.2⟩

/-- Witness for C2: a syscall from a foreign instruction pointer with a
non-whitelisted number is traced. -/
theorem c2_seccomp_filter_witness :
    ¬((5 : Int) = 1000 ∨ (999 : Int) = SYS_clone ∨ (999 : Int) = SYS_fork ∨
        (999 : Int) = SYS_restart_syscall) ∧
      run_filter 5 999 (install_syscall_filter 1000) = .trace :=
  ⟨by decide, (c2_seccomp_filter 1000 5 999).2 (by decide)⟩
